import Mathlib

/-!
Verification of the URJANET_Team_Solar microgrid control plane core
(backend/app: safety.py, action_mapping.py, rules.py, crud.py, main.py),
shallowly embedded in Lean 4.  Python floats are modelled as rationals,
Python dicts over the fixed semantic keys as structures (with `Option`
fields where a key may be absent), and a raised `KeyError` as
`Except.error`.
-/

/-! ## Safety supervisor (backend/app/safety.py) -/

/-- Capacity constant from safety.py: `BATTERY_MAX_CHARGE_TOTAL = 800.0`. -/
def BATTERY_MAX_CHARGE_TOTAL : ℚ := 800

/-- Capacity constant from safety.py: `BATTERY_MAX_DISCHARGE_TOTAL = 800.0`. -/
def BATTERY_MAX_DISCHARGE_TOTAL : ℚ := 800

/-- Capacity constant from safety.py: `GRID_MAX_IMPORT = 5000.0`. -/
def GRID_MAX_IMPORT : ℚ := 5000

/-- Capacity constant from safety.py: `EV_MAX_CHARGE = 450.0`. -/
def EV_MAX_CHARGE : ℚ := 450

/-- A semantic action dictionary carrying all six keys produced by
`map_action` (action_mapping.py): this is the shape `apply_safety`
receives on the advisory path in main.py. -/
structure SemAction where
  battery_kw : ℚ
  battery1_kw : ℚ
  battery2_kw : ℚ
  grid_kw : ℚ
  ev_kw : ℚ
  curtailment : ℚ
deriving DecidableEq, Repr

/-- The "SoC envelope logic" and "Battery power clamp" blocks of
`apply_safety` (safety.py lines 21-34): the four sequential conditional
updates of `safe['battery_kw']`, with their flags in firing order.  These
statements read and write only `battery_kw`. -/
def battery_block (soc_fraction b : ℚ) : ℚ × List String :=
  let p1 :=
    if soc_fraction < 20/100 ∧ b < 0 then
      ((0 : ℚ), ["BLOCK_DISCHARGE_LOW_SOC"])
    else (b, ([] : List String))
  let p2 :=
    if soc_fraction > 90/100 ∧ p1.1 > 0 then
      ((0 : ℚ), p1.2 ++ ["BLOCK_CHARGE_HIGH_SOC"])
    else p1
  let p3 :=
    if p2.1 > BATTERY_MAX_CHARGE_TOTAL then
      (BATTERY_MAX_CHARGE_TOTAL, p2.2 ++ ["CLAMP_BATTERY_CHARGE"])
    else p2
  let p4 :=
    if p3.1 < -BATTERY_MAX_DISCHARGE_TOTAL then
      (-BATTERY_MAX_DISCHARGE_TOTAL, p3.2 ++ ["CLAMP_BATTERY_DISCHARGE"])
    else p3
  p4

/-- The "Grid power (no export for now)" block of `apply_safety`
(safety.py lines 35-41): the two sequential conditional updates of
`safe['grid_kw']`. -/
def grid_block (g : ℚ) : ℚ × List String :=
  let p1 :=
    if g < 0 then ((0 : ℚ), ["NO_EXPORT_SUPPORTED"])
    else (g, ([] : List String))
  let p2 :=
    if p1.1 > GRID_MAX_IMPORT then (GRID_MAX_IMPORT, p1.2 ++ ["CLAMP_GRID_IMPORT"])
    else p1
  p2

/-- The "EV" block of `apply_safety` (safety.py lines 42-48): the two
sequential conditional updates of `safe['ev_kw']`. -/
def ev_block (e : ℚ) : ℚ × List String :=
  let p1 :=
    if e < 0 then ((0 : ℚ), ["NEG_EV_POWER"])
    else (e, ([] : List String))
  let p2 :=
    if p1.1 > EV_MAX_CHARGE then (EV_MAX_CHARGE, p1.2 ++ ["CLAMP_EV_CHARGE"])
    else p1
  p2

/-- The "Curtailment" block of `apply_safety` (safety.py lines 49-55):
the two sequential conditional updates of `safe['curtailment']`. -/
def curtailment_block (c : ℚ) : ℚ × List String :=
  let p1 :=
    if c < 0 then ((0 : ℚ), ["CURTAILMENT_NEG"])
    else (c, ([] : List String))
  let p2 :=
    if p1.1 > 1 then ((1 : ℚ), p1.2 ++ ["CURTAILMENT_GT1"])
    else p1
  p2

/-- `apply_safety` from safety.py (lines 18-56) on a dictionary carrying
all standard fields.  The Python function copies the dict
(`safe = dict(semantic)`), then runs a straight-line sequence of
conditional clamps, each appending its flag.  The statement sequence
consists of four comment-delimited blocks that each read and write a
single distinct key of `safe` (battery, grid, EV, curtailment, in that
order), so the sequence is the composition of the four blocks with the
flag lists concatenated in block order; `battery1_kw` and `battery2_kw`
are copied through untouched. -/
def apply_safety (semantic : SemAction) (soc_fraction : ℚ) :
    SemAction × List String :=
  ({ semantic with
      battery_kw := (battery_block soc_fraction semantic.battery_kw).1,
      grid_kw := (grid_block semantic.grid_kw).1,
      ev_kw := (ev_block semantic.ev_kw).1,
      curtailment := (curtailment_block semantic.curtailment).1 },
   (battery_block soc_fraction semantic.battery_kw).2 ++
     (grid_block semantic.grid_kw).2 ++
     (ev_block semantic.ev_kw).2 ++
     (curtailment_block semantic.curtailment).2)

/-- The safety envelope of §4.5/§4.6: battery in `[-800, 800]`, grid in
`[0, 5000]`, EV in `[0, 450]`, curtailment in `[0, 1]`. -/
def inEnvelope (a : SemAction) : Prop :=
  -BATTERY_MAX_DISCHARGE_TOTAL ≤ a.battery_kw ∧
  a.battery_kw ≤ BATTERY_MAX_CHARGE_TOTAL ∧
  0 ≤ a.grid_kw ∧ a.grid_kw ≤ GRID_MAX_IMPORT ∧
  0 ≤ a.ev_kw ∧ a.ev_kw ≤ EV_MAX_CHARGE ∧
  0 ≤ a.curtailment ∧ a.curtailment ≤ 1

instance (a : SemAction) : Decidable (inEnvelope a) := by
  unfold inEnvelope; infer_instance

/-! ### `apply_safety` at dictionary level

`apply_safety` receives a Python dict and subscripts it
(`safe['battery_kw']`, ...); a subscript of an absent key raises
`KeyError`.  To settle what the function does on dictionaries missing
some of the standard fields, the dict is modelled with `Option` fields
and a raised `KeyError` as `Except.error` carrying the key, and each
`if`-statement of the source becomes one rule function; the short-circuit
of Python `and` (the subscript on the right of `and` is evaluated only
when the left side is true) is kept. -/

/-- A semantic-action dictionary in which any of the six standard keys
may be absent (`none`).  `map_action` always produces all six, but
`apply_safety`'s contract is quantified over arbitrary dictionaries. -/
structure SemDict where
  battery_kw : Option ℚ
  battery1_kw : Option ℚ
  battery2_kw : Option ℚ
  grid_kw : Option ℚ
  ev_kw : Option ℚ
  curtailment : Option ℚ
deriving DecidableEq, Repr

/-- The dictionary with all six keys present, as produced by
`map_action`. -/
def SemDict.ofAction (a : SemAction) : SemDict :=
  ⟨some a.battery_kw, some a.battery1_kw, some a.battery2_kw,
   some a.grid_kw, some a.ev_kw, some a.curtailment⟩

/-- `safe[key]`: a present key yields its value, an absent key raises
`KeyError` (modelled as `Except.error key`). -/
def getKey (o : Option ℚ) (key : String) : Except String ℚ :=
  match o with
  | some v => Except.ok v
  | none => Except.error key

/-- safety.py lines 22-24: `if soc_fraction < 0.20 and safe['battery_kw'] < 0`.
The subscript happens only when `soc_fraction < 0.20` (Python `and`
short-circuits). -/
def brule1 (soc_fraction : ℚ) (st : SemDict × List String) :
    Except String (SemDict × List String) :=
  if soc_fraction < 20/100 then
    (getKey st.1.battery_kw "battery_kw").bind fun b =>
      if b < 0 then
        Except.ok ({ st.1 with battery_kw := some 0 },
                   st.2 ++ ["BLOCK_DISCHARGE_LOW_SOC"])
      else Except.ok st
  else Except.ok st

/-- safety.py lines 25-27: `if soc_fraction > 0.90 and safe['battery_kw'] > 0`. -/
def brule2 (soc_fraction : ℚ) (st : SemDict × List String) :
    Except String (SemDict × List String) :=
  if soc_fraction > 90/100 then
    (getKey st.1.battery_kw "battery_kw").bind fun b =>
      if b > 0 then
        Except.ok ({ st.1 with battery_kw := some 0 },
                   st.2 ++ ["BLOCK_CHARGE_HIGH_SOC"])
      else Except.ok st
  else Except.ok st

/-- safety.py lines 29-31: `if safe['battery_kw'] > BATTERY_MAX_CHARGE_TOTAL`. -/
def brule3 (st : SemDict × List String) :
    Except String (SemDict × List String) :=
  (getKey st.1.battery_kw "battery_kw").bind fun b =>
    if b > BATTERY_MAX_CHARGE_TOTAL then
      Except.ok ({ st.1 with battery_kw := some BATTERY_MAX_CHARGE_TOTAL },
                 st.2 ++ ["CLAMP_BATTERY_CHARGE"])
    else Except.ok st

/-- safety.py lines 32-34: `if safe['battery_kw'] < -BATTERY_MAX_DISCHARGE_TOTAL`. -/
def brule4 (st : SemDict × List String) :
    Except String (SemDict × List String) :=
  (getKey st.1.battery_kw "battery_kw").bind fun b =>
    if b < -BATTERY_MAX_DISCHARGE_TOTAL then
      Except.ok ({ st.1 with battery_kw := some (-BATTERY_MAX_DISCHARGE_TOTAL) },
                 st.2 ++ ["CLAMP_BATTERY_DISCHARGE"])
    else Except.ok st

/-- safety.py lines 36-38: `if safe['grid_kw'] < 0`. -/
def grule1 (st : SemDict × List String) :
    Except String (SemDict × List String) :=
  (getKey st.1.grid_kw "grid_kw").bind fun g =>
    if g < 0 then
      Except.ok ({ st.1 with grid_kw := some 0 },
                 st.2 ++ ["NO_EXPORT_SUPPORTED"])
    else Except.ok st

/-- safety.py lines 39-41: `if safe['grid_kw'] > GRID_MAX_IMPORT`. -/
def grule2 (st : SemDict × List String) :
    Except String (SemDict × List String) :=
  (getKey st.1.grid_kw "grid_kw").bind fun g =>
    if g > GRID_MAX_IMPORT then
      Except.ok ({ st.1 with grid_kw := some GRID_MAX_IMPORT },
                 st.2 ++ ["CLAMP_GRID_IMPORT"])
    else Except.ok st

/-- safety.py lines 43-45: `if safe['ev_kw'] < 0`. -/
def evrule1 (st : SemDict × List String) :
    Except String (SemDict × List String) :=
  (getKey st.1.ev_kw "ev_kw").bind fun e =>
    if e < 0 then
      Except.ok ({ st.1 with ev_kw := some 0 }, st.2 ++ ["NEG_EV_POWER"])
    else Except.ok st

/-- safety.py lines 46-48: `if safe['ev_kw'] > EV_MAX_CHARGE`. -/
def evrule2 (st : SemDict × List String) :
    Except String (SemDict × List String) :=
  (getKey st.1.ev_kw "ev_kw").bind fun e =>
    if e > EV_MAX_CHARGE then
      Except.ok ({ st.1 with ev_kw := some EV_MAX_CHARGE },
                 st.2 ++ ["CLAMP_EV_CHARGE"])
    else Except.ok st

/-- safety.py lines 50-52: `if safe['curtailment'] < 0`. -/
def crule1 (st : SemDict × List String) :
    Except String (SemDict × List String) :=
  (getKey st.1.curtailment "curtailment").bind fun c =>
    if c < 0 then
      Except.ok ({ st.1 with curtailment := some 0 },
                 st.2 ++ ["CURTAILMENT_NEG"])
    else Except.ok st

/-- safety.py lines 53-55: `if safe['curtailment'] > 1`. -/
def crule2 (st : SemDict × List String) :
    Except String (SemDict × List String) :=
  (getKey st.1.curtailment "curtailment").bind fun c =>
    if c > 1 then
      Except.ok ({ st.1 with curtailment := some 1 },
                 st.2 ++ ["CURTAILMENT_GT1"])
    else Except.ok st

/-- The four battery statements of `apply_safety` (safety.py lines
21-34) in source order. -/
def battery_rules_dict (soc_fraction : ℚ) (st : SemDict × List String) :
    Except String (SemDict × List String) :=
  (brule1 soc_fraction st).bind fun st =>
  (brule2 soc_fraction st).bind fun st =>
  (brule3 st).bind fun st =>
  brule4 st

/-- The two grid statements of `apply_safety` (safety.py lines 35-41). -/
def grid_rules_dict (st : SemDict × List String) :
    Except String (SemDict × List String) :=
  (grule1 st).bind fun st => grule2 st

/-- The two EV statements of `apply_safety` (safety.py lines 42-48). -/
def ev_rules_dict (st : SemDict × List String) :
    Except String (SemDict × List String) :=
  (evrule1 st).bind fun st => evrule2 st

/-- The two curtailment statements of `apply_safety` (safety.py lines
49-55). -/
def curtailment_rules_dict (st : SemDict × List String) :
    Except String (SemDict × List String) :=
  (crule1 st).bind fun st => crule2 st

/-- `apply_safety` from safety.py at dictionary level: copy the dict
(`safe = dict(semantic)`), start with empty flags, and run the ten
`if`-statements in source order (`bind` is associative, so grouping the
straight-line sequence by block does not change the function); the first
subscript of an absent key aborts with `KeyError`. -/
def apply_safety_dict (semantic : SemDict) (soc_fraction : ℚ) :
    Except String (SemDict × List String) :=
  (battery_rules_dict soc_fraction (semantic, [])).bind fun st =>
  (grid_rules_dict st).bind fun st =>
  (ev_rules_dict st).bind fun st =>
  curtailment_rules_dict st

/-! ## Action semantic mapper (backend/app/action_mapping.py) -/

namespace action_mapping

/-- Capacity constants from action_mapping.py (lines 15-21). -/
def BAT1_MAX_CHARGE : ℚ := 600

def BAT1_MAX_DISCHARGE : ℚ := 600

def BAT2_MAX_CHARGE : ℚ := 200

def BAT2_MAX_DISCHARGE : ℚ := 200

def GRID_MAX_IMPORT : ℚ := 5000

def GRID_MAX_EXPORT : ℚ := 3000

def EV_MAX_AGG_CHARGE : ℚ := 450

/-- `_battery_power_component` from action_mapping.py (lines 38-41). -/
def battery_power_component (raw max_charge max_discharge : ℚ) : ℚ :=
  if raw ≥ 0 then raw * max_charge
  else raw * max_discharge

/-- The all-zero semantic dict returned by `map_action` on an empty
vector (action_mapping.py lines 44-52). -/
def zero_semantic : SemAction :=
  ⟨0, 0, 0, 0, 0, 0⟩

/-- The padding loop `while len(v) < 5: v.append(0.0)` (lines 55-56):
right-pad with zeros up to length 5 (a no-op on length ≥ 5). -/
def pad5 (v : List ℚ) : List ℚ :=
  v ++ List.replicate (5 - v.length) 0

/-- `map_action` from action_mapping.py (lines 43-75), returning both the
semantic dict and the final state of the caller's `raw_vector` list: the
padding loop appends to the argument list in place, so on the non-empty
branch the caller's list ends up right-padded to length 5.  After
padding, `v` has length at least 5, so the subscripts `v[0]`..`v[4]` are
in range (`getD` never falls back to its default). -/
def map_action_effect (raw_vector : List ℚ) : SemAction × List ℚ :=
  if raw_vector = [] then (zero_semantic, raw_vector)
  else
    let v := pad5 raw_vector
    let b1 := battery_power_component (v.getD 0 0) BAT1_MAX_CHARGE BAT1_MAX_DISCHARGE
    let b2 := battery_power_component (v.getD 1 0) BAT2_MAX_CHARGE BAT2_MAX_DISCHARGE
    let grid_norm := v.getD 2 0
    let grid_kw :=
      if grid_norm ≥ 0 then grid_norm * GRID_MAX_IMPORT
      else -grid_norm * GRID_MAX_EXPORT * (-1)
    let ev_norm := max 0 (min 1 (v.getD 3 0))
    let ev_kw := ev_norm * EV_MAX_AGG_CHARGE
    let curtailment := (v.getD 4 0 + 1) / 2
    ({ battery_kw := b1 + b2, battery1_kw := b1, battery2_kw := b2,
       grid_kw := grid_kw, ev_kw := ev_kw,
       curtailment := max 0 (min 1 curtailment) }, v)

/-- The value returned by `map_action`. -/
def map_action (raw_vector : List ℚ) : SemAction :=
  (map_action_effect raw_vector).1

end action_mapping

/-- The safe-advisory composition in main.py `rl_advisory_safe`
(lines 522-558): `semantic_raw = map_action(list(raw_vec)) if raw_vec
else None` and `semantic_safe, flags = apply_safety(semantic_raw,
soc_fraction) if semantic_raw else (None, [])`, with `soc_fraction =
soc_pct / 100.0`.  `map_action` always returns a non-empty dict, so the
second guard reduces to the first. -/
def rl_advisory_semantic_safe (raw_vec : List ℚ) (soc_pct : ℚ) :
    Option (SemAction × List String) :=
  if raw_vec = [] then none
  else some (apply_safety (action_mapping.map_action raw_vec) (soc_pct / 100))

/-! ## Rule evaluator (backend/app/rules.py) -/

/-- The `Rule` dataclass from rules.py (lines 5-12). -/
structure Rule where
  field : String
  op : String
  threshold : ℚ
  severity : String
  type : String
  message : String

/-- `Rule.check` from rules.py (lines 14-22): absent field yields `None`;
otherwise return `(value, threshold)` when the `lt`/`gt` comparison
holds. -/
def Rule.check (r : Rule) (payload : List (String × ℚ)) : Option (ℚ × ℚ) :=
  match payload.lookup r.field with
  | none => none
  | some value =>
    if r.op = "lt" ∧ value < r.threshold then some (value, r.threshold)
    else if r.op = "gt" ∧ value > r.threshold then some (value, r.threshold)
    else none

/-- `RULES` from rules.py (lines 25-29). -/
def RULES : List Rule :=
  [⟨"soc", "lt", 20, "WARN", "SOC_LOW", "State of Charge below 20%"⟩,
   ⟨"voltage", "gt", 250, "HIGH", "VOLTAGE_HIGH", "Voltage exceeds 250V"⟩,
   ⟨"temperature", "gt", 60, "HIGH", "TEMP_HIGH", "Temperature above 60C"⟩]

/-- The alert dictionary yielded by `evaluate` (rules.py lines 37-43). -/
structure AlertDict where
  type_ : String
  severity : String
  message : String
  value : ℚ
  threshold : ℚ
deriving DecidableEq, Repr

/-- Builds the yielded alert dict of rules.py lines 37-43. -/
def mkAlert (r : Rule) (vt : ℚ × ℚ) : AlertDict :=
  ⟨r.type, r.severity, r.message, vt.1, vt.2⟩

/-- `evaluate` from rules.py (lines 32-43): every rule is checked in
declaration order; a rule whose check returns a (always truthy) tuple
yields one alert.  Modelled as `filterMap`, which yields in list order. -/
def evaluate (payload : List (String × ℚ)) : List AlertDict :=
  RULES.filterMap fun rule => (rule.check payload).map (mkAlert rule)

/-! ## Decision audit log pagination (backend/app/crud.py, main.py) -/

/-- The projection of an `RLDecisionLog` row that the pagination logic of
`list_rl_decisions` touches: its auto-increment `id` and its
`device_id`. -/
structure RLDecisionRow where
  id : ℕ
  device_id : String
deriving DecidableEq, Repr

/-- `ORDER BY id DESC`: row `a` comes before row `b` when `b.id ≤ a.id`. -/
def byIdDesc (a b : RLDecisionRow) : Prop := b.id ≤ a.id

instance : DecidableRel byIdDesc :=
  fun a b => inferInstanceAs (Decidable (b.id ≤ a.id))

instance : IsTotal RLDecisionRow byIdDesc :=
  ⟨fun a b => Nat.le_total b.id a.id⟩

instance : IsTrans RLDecisionRow byIdDesc :=
  ⟨fun _ _ _ hab hbc => Nat.le_trans hbc hab⟩

/-- The two `filter` clauses of `list_rl_decisions` (crud.py lines
96-99): restrict to the device, and to `id < before_id` when a cursor is
given. -/
def rl_query_filter (db : List RLDecisionRow) (device_id : String)
    (before_id : Option ℕ) : List RLDecisionRow :=
  let q := db.filter fun r => decide (r.device_id = device_id)
  match before_id with
  | some b => q.filter fun r => decide (r.id < b)
  | none => q

/-- `list_rl_decisions` from crud.py (lines 95-105): filter, order by
`id` descending, take `limit + 1` rows (one extra for `has_more`), then
trim to `limit` when the extra row arrived. -/
def list_rl_decisions (db : List RLDecisionRow) (device_id : String)
    (limit : ℕ) (before_id : Option ℕ) : List RLDecisionRow × Bool :=
  let sorted := (rl_query_filter db device_id before_id).insertionSort byIdDesc
  let rows := sorted.take (limit + 1)
  let has_more : Bool := decide (limit < rows.length)
  (if has_more then rows.take limit else rows, has_more)

/-- The running-minimum loop of `rl_history` (main.py lines 590-592):
`if min_id is None or r.id < min_id: min_id = r.id`. -/
def min_id_of (rows : List RLDecisionRow) : Option ℕ :=
  rows.foldl
    (fun acc r =>
      match acc with
      | none => some r.id
      | some m => if r.id < m then some r.id else some m)
    none

/-- `rl_history` from main.py (lines 584-626), reduced to the data the
pagination contract concerns: the returned decisions, `next_before_id`
(`min_id if has_more and min_id is not None else None`), and
`has_more`. -/
def rl_history_page (db : List RLDecisionRow) (device_id : String)
    (limit : ℕ) (before_id : Option ℕ) :
    List RLDecisionRow × Option ℕ × Bool :=
  let res := list_rl_decisions db device_id limit before_id
  let next_before := if res.2 = true then min_id_of res.1 else none
  (res.1, next_before, res.2)

/-! ## Deduplication cache (backend/app/main.py lines 84-118) -/

/-- `_DEDUP_MAX = 5000` (main.py line 86). -/
def DEDUP_MAX : ℕ := 5000

/-- Number of entries removed by the eviction loop (main.py lines
108-112): `for i, k in enumerate(list(_dedup_cache.keys())): del
_dedup_cache[k]; if i > _DEDUP_MAX//10: break` deletes the keys at
positions `0 .. _DEDUP_MAX//10 + 1` in insertion order, i.e. the oldest
`_DEDUP_MAX//10 + 2 = 502` entries (all of them when fewer remain). -/
def dedup_evict_count : ℕ := DEDUP_MAX / 10 + 2

/-- The dedup-cache portion of `handle_ingested` (main.py lines
103-113), with the cache as its list of keys in insertion order (CPython
3.7+ dicts iterate in insertion order): a key already present is
discarded; otherwise, if the cache has reached `_DEDUP_MAX` entries, the
oldest `dedup_evict_count` entries are dropped, and then the key is
appended. -/
def dedup_insert {K : Type} [DecidableEq K] (cache : List K) (key : K) :
    List K :=
  if key ∈ cache then cache
  else
    let cache := if DEDUP_MAX ≤ cache.length then cache.drop dedup_evict_count
                 else cache
    cache ++ [key]

/-- A concrete audit log for the spec's pagination scenario: 30 stored
decisions for one device, ids 1..30. -/
def demo_db : List RLDecisionRow :=
  (List.range 30).map fun i => ⟨i + 1, "dev"⟩

/-- The 25 entries the scenario expects back: ids 30 down to 6. -/
def demo_expected : List RLDecisionRow :=
  (List.range 25).map fun i => ⟨30 - i, "dev"⟩

theorem battery_block_bounds (soc b : ℚ) :
    -BATTERY_MAX_DISCHARGE_TOTAL ≤ (battery_block soc b).1 ∧
      (battery_block soc b).1 ≤ BATTERY_MAX_CHARGE_TOTAL := by
  simp only [battery_block, BATTERY_MAX_CHARGE_TOTAL, BATTERY_MAX_DISCHARGE_TOTAL]
  split_ifs <;> simp_all

theorem grid_block_bounds (g : ℚ) :
    0 ≤ (grid_block g).1 ∧ (grid_block g).1 ≤ GRID_MAX_IMPORT := by
  simp only [grid_block, GRID_MAX_IMPORT]
  split_ifs <;> simp_all

theorem ev_block_bounds (e : ℚ) :
    0 ≤ (ev_block e).1 ∧ (ev_block e).1 ≤ EV_MAX_CHARGE := by
  simp only [ev_block, EV_MAX_CHARGE]
  split_ifs <;> simp_all

theorem curtailment_block_bounds (c : ℚ) :
    0 ≤ (curtailment_block c).1 ∧ (curtailment_block c).1 ≤ 1 := by
  simp only [curtailment_block]
  split_ifs <;> simp_all

theorem apply_safety_mem_envelope (a : SemAction) (soc : ℚ) :
    inEnvelope (apply_safety a soc).1 := by
  obtain ⟨hb1, hb2⟩ := battery_block_bounds soc a.battery_kw
  obtain ⟨hg1, hg2⟩ := grid_block_bounds a.grid_kw
  obtain ⟨he1, he2⟩ := ev_block_bounds a.ev_kw
  obtain ⟨hc1, hc2⟩ := curtailment_block_bounds a.curtailment
  exact ⟨hb1, hb2, hg1, hg2, he1, he2, hc1, hc2⟩

theorem battery_block_low_soc (soc b : ℚ) (hsoc : soc < 20/100) (hb : b < 0) :
    battery_block soc b = (0, ["BLOCK_DISCHARGE_LOW_SOC"]) := by
  simp only [battery_block, BATTERY_MAX_CHARGE_TOTAL, BATTERY_MAX_DISCHARGE_TOTAL]
  split_ifs <;> simp_all <;> linarith

theorem grid_block_neg (g : ℚ) (hg : g < 0) :
    grid_block g = (0, ["NO_EXPORT_SUPPORTED"]) := by
  simp only [grid_block, GRID_MAX_IMPORT]
  split_ifs <;> simp_all <;> linarith

theorem grid_block_clamp (g : ℚ) (hg : g > GRID_MAX_IMPORT) :
    grid_block g = (GRID_MAX_IMPORT, ["CLAMP_GRID_IMPORT"]) := by
  simp only [grid_block, GRID_MAX_IMPORT] at *
  split_ifs <;> simp_all <;> linarith

theorem battery_block_fix (soc x : ℚ) (h1 : ¬(soc < 20/100 ∧ x < 0))
    (h2 : ¬(soc > 90/100 ∧ x > 0)) (h3 : ¬ x > BATTERY_MAX_CHARGE_TOTAL)
    (h4 : ¬ x < -BATTERY_MAX_DISCHARGE_TOTAL) :
    battery_block soc x = (x, []) := by
  simp only [battery_block]
  split_ifs <;> simp_all

theorem battery_block_low_nonneg (soc b : ℚ) (hsoc : soc < 20/100) :
    0 ≤ (battery_block soc b).1 := by
  simp only [battery_block, BATTERY_MAX_CHARGE_TOTAL, BATTERY_MAX_DISCHARGE_TOTAL]
  split_ifs <;> simp_all <;> linarith

theorem battery_block_high_nonpos (soc b : ℚ) (hsoc : soc > 90/100) :
    (battery_block soc b).1 ≤ 0 := by
  simp only [battery_block, BATTERY_MAX_CHARGE_TOTAL, BATTERY_MAX_DISCHARGE_TOTAL]
  split_ifs <;> simp_all <;> linarith

theorem battery_block_idem (soc b : ℚ) :
    battery_block soc (battery_block soc b).1 = ((battery_block soc b).1, []) := by
  obtain ⟨hlo, hhi⟩ := battery_block_bounds soc b
  refine battery_block_fix soc _ ?_ ?_ ?_ ?_
  · rintro ⟨hs, hx⟩
    have := battery_block_low_nonneg soc b hs
    linarith
  · rintro ⟨hs, hx⟩
    have := battery_block_high_nonpos soc b hs
    linarith
  · simp only [BATTERY_MAX_CHARGE_TOTAL] at *
    linarith
  · simp only [BATTERY_MAX_DISCHARGE_TOTAL] at *
    linarith

/-- C2: for every semantic-action dictionary containing the standard
fields and every `soc_fraction`, the action returned by `apply_safety`
satisfies the safety envelope (`battery_kw ∈ [-800, 800]`,
`grid_kw ∈ [0, 5000]`, `ev_kw ∈ [0, 450]`, `curtailment ∈ [0, 1]`);
hence every `semantic_safe` produced through the `rl_advisory_safe` path
of main.py satisfies the envelope by construction. -/
theorem semantic_safe_envelope :
    (∀ (a : SemAction) (soc : ℚ), inEnvelope (apply_safety a soc).1) ∧
    (∀ (raw : List ℚ) (soc_pct : ℚ) (res : SemAction × List String),
      rl_advisory_semantic_safe raw soc_pct = some res → inEnvelope res.1) := by
  refine ⟨apply_safety_mem_envelope, ?_⟩
  intro raw soc_pct res h
  by_cases hr : raw = [] <;> simp [rl_advisory_semantic_safe, hr] at h
  rw [← h]
  exact apply_safety_mem_envelope _ _

/-- Witness for C2: a concrete run of the advisory path, and the
envelope holding on its safe action. -/
theorem semantic_safe_envelope_witness :
    rl_advisory_semantic_safe [0, 0, 0, 0, 0] 50 =
        some (⟨0, 0, 0, 0, 0, 1/2⟩, []) ∧
      inEnvelope (⟨0, 0, 0, 0, 0, 1/2⟩ : SemAction) := by
  have heval : rl_advisory_semantic_safe [0, 0, 0, 0, 0] 50 =
      some (⟨0, 0, 0, 0, 0, 1/2⟩, []) := by
    simp [rl_advisory_semantic_safe, action_mapping.map_action,
      action_mapping.map_action_effect, action_mapping.pad5,
      action_mapping.battery_power_component, action_mapping.BAT1_MAX_CHARGE,
      action_mapping.BAT1_MAX_DISCHARGE, action_mapping.BAT2_MAX_CHARGE,
      action_mapping.BAT2_MAX_DISCHARGE, action_mapping.GRID_MAX_IMPORT,
      action_mapping.GRID_MAX_EXPORT, action_mapping.EV_MAX_AGG_CHARGE,
      apply_safety, battery_block, grid_block, ev_block, curtailment_block,
      BATTERY_MAX_CHARGE_TOTAL, BATTERY_MAX_DISCHARGE_TOTAL,
      GRID_MAX_IMPORT, EV_MAX_CHARGE]
    norm_num
  exact ⟨heval, semantic_safe_envelope.2 [0, 0, 0, 0, 0] 50 _ heval⟩

/-- C3: whenever the requested `battery_kw` is negative and the
state-of-charge fraction is below 0.20, `apply_safety` forces
`battery_kw` to 0 and records `BLOCK_DISCHARGE_LOW_SOC`. -/
theorem apply_safety_block_discharge (a : SemAction) (soc : ℚ)
    (hb : a.battery_kw < 0) (hs : soc < 20/100) :
    (apply_safety a soc).1.battery_kw = 0 ∧
      "BLOCK_DISCHARGE_LOW_SOC" ∈ (apply_safety a soc).2 := by
  simp only [apply_safety]
  rw [battery_block_low_soc soc a.battery_kw hs hb]
  simp

/-- Witness for C3, the spec scenario: SoC fraction 0.10 and raw
`battery_kw = -500`. -/
theorem apply_safety_block_discharge_witness :
    (apply_safety ⟨-500, 0, 0, 0, 0, 0⟩ (10/100)).1.battery_kw = 0 ∧
      "BLOCK_DISCHARGE_LOW_SOC" ∈ (apply_safety ⟨-500, 0, 0, 0, 0, 0⟩ (10/100)).2 :=
  apply_safety_block_discharge ⟨-500, 0, 0, 0, 0, 0⟩ (10/100)
    (by norm_num) (by norm_num)

/-- C4: `apply_safety` forces a negative `grid_kw` to 0 with flag
`NO_EXPORT_SUPPORTED`; the returned `grid_kw` never exceeds 5000, and
when the import clamp fired the result is 5000 with flag
`CLAMP_GRID_IMPORT`. -/
theorem apply_safety_grid_spec (a : SemAction) (soc : ℚ) :
    (a.grid_kw < 0 → (apply_safety a soc).1.grid_kw = 0 ∧
        "NO_EXPORT_SUPPORTED" ∈ (apply_safety a soc).2) ∧
    (apply_safety a soc).1.grid_kw ≤ GRID_MAX_IMPORT ∧
    (a.grid_kw > GRID_MAX_IMPORT →
      (apply_safety a soc).1.grid_kw = GRID_MAX_IMPORT ∧
        "CLAMP_GRID_IMPORT" ∈ (apply_safety a soc).2) := by
  refine ⟨?_, ?_, ?_⟩
  · intro h
    simp only [apply_safety]
    rw [grid_block_neg a.grid_kw h]
    simp
  · simp only [apply_safety]
    exact (grid_block_bounds a.grid_kw).2
  · intro h
    simp only [apply_safety]
    rw [grid_block_clamp a.grid_kw h]
    simp

/-- Witness for C4, the spec scenario: raw `grid_kw = -200` (attempted
export). -/
theorem apply_safety_grid_spec_witness :
    (apply_safety ⟨0, 0, 0, -200, 0, 0⟩ (1/2)).1.grid_kw = 0 ∧
      "NO_EXPORT_SUPPORTED" ∈ (apply_safety ⟨0, 0, 0, -200, 0, 0⟩ (1/2)).2 :=
  (apply_safety_grid_spec ⟨0, 0, 0, -200, 0, 0⟩ (1/2)).1 (by norm_num)

theorem grid_block_idem (g : ℚ) :
    grid_block (grid_block g).1 = ((grid_block g).1, []) := by
  simp only [grid_block, GRID_MAX_IMPORT]
  split_ifs <;> simp_all <;> linarith

theorem ev_block_idem (e : ℚ) :
    ev_block (ev_block e).1 = ((ev_block e).1, []) := by
  simp only [ev_block, EV_MAX_CHARGE]
  split_ifs <;> simp_all <;> linarith

theorem curtailment_block_idem (c : ℚ) :
    curtailment_block (curtailment_block c).1 = ((curtailment_block c).1, []) := by
  simp only [curtailment_block]
  split_ifs <;> simp_all <;> linarith

/-- C5 counterexample: `supervise` returns the clamped action together
with the flag list, and on `battery_kw = 1000`, `soc = 0.5` the first
pass fires `CLAMP_BATTERY_CHARGE` while the second pass fires nothing,
so the full returned pair is not preserved by a second application. -/
theorem supervise_pair_not_idem :
    apply_safety ((apply_safety ⟨1000, 0, 0, 0, 0, 0⟩ (1/2)).1) (1/2) ≠
      apply_safety ⟨1000, 0, 0, 0, 0, 0⟩ (1/2) := by
  norm_num [apply_safety, battery_block, grid_block, ev_block,
    curtailment_block, BATTERY_MAX_CHARGE_TOTAL, BATTERY_MAX_DISCHARGE_TOTAL,
    GRID_MAX_IMPORT, EV_MAX_CHARGE]

/-- C5 amended: the Safety Supervisor is idempotent on the action
component — re-supervising a supervised action returns that same action
unchanged, with an empty flag list. -/
theorem apply_safety_resupervise (a : SemAction) (soc : ℚ) :
    apply_safety ((apply_safety a soc).1) soc = ((apply_safety a soc).1, []) := by
  simp [apply_safety, battery_block_idem, grid_block_idem, ev_block_idem,
    curtailment_block_idem]

theorem pad5_length (v : List ℚ) (h : v.length ≤ 5) :
    (action_mapping.pad5 v).length = 5 := by
  simp [action_mapping.pad5]
  omega

theorem pad5_of_ge (v : List ℚ) (h : 5 ≤ v.length) :
    action_mapping.pad5 v = v := by
  simp [action_mapping.pad5, Nat.sub_eq_zero_of_le h]

/-- C6 counterexample: on the empty raw vector `map_action` returns the
all-zero dict (curtailment 0), while on the zero-padded vector
`[0,0,0,0,0]` the curtailment remap `(0+1)/2` gives 1/2, so the two
disagree. -/
theorem map_action_empty_ne_padded :
    action_mapping.map_action [] ≠ action_mapping.map_action [0, 0, 0, 0, 0] := by
  simp [action_mapping.map_action, action_mapping.map_action_effect,
    action_mapping.pad5, action_mapping.battery_power_component,
    action_mapping.zero_semantic]
  norm_num

/-- C6 amended: for every non-empty raw vector of length strictly less
than 5, `map_action` returns the same semantic action as on the vector
right-padded with zeros to length 5 (the empty vector is the exception:
it short-circuits to the all-zero dict). -/
theorem map_action_pad_agree (v : List ℚ) (hne : v ≠ []) (hlt : v.length < 5) :
    action_mapping.map_action v =
      action_mapping.map_action (v ++ List.replicate (5 - v.length) 0) := by
  have h5 : (action_mapping.pad5 v).length = 5 := pad5_length v (le_of_lt hlt)
  have hpne : action_mapping.pad5 v ≠ [] := by
    intro h
    rw [h] at h5
    simp at h5
  show action_mapping.map_action v = action_mapping.map_action (action_mapping.pad5 v)
  unfold action_mapping.map_action action_mapping.map_action_effect
  rw [if_neg hne, if_neg hpne, pad5_of_ge (action_mapping.pad5 v) (le_of_eq h5.symm)]

/-- Witness for C6 (amended): the singleton vector `[1/2]`. -/
theorem map_action_pad_agree_witness :
    action_mapping.map_action [1/2] =
      action_mapping.map_action ([1/2] ++ List.replicate (5 - [(1/2 : ℚ)].length) 0) :=
  map_action_pad_agree [1/2] (by simp) (by simp)

/-- C10: `map_action` mutates its argument: on a non-empty raw vector of
length 1..4 the padding loop appends zeros to the caller's list in
place, so after the call the caller's list is the zero-padded length-5
list, which differs from the list passed in. -/
theorem map_action_effect_mutates (v : List ℚ) (hne : v ≠ []) (hlt : v.length < 5) :
    (action_mapping.map_action_effect v).2 = v ++ List.replicate (5 - v.length) 0 ∧
    (action_mapping.map_action_effect v).2.length = 5 ∧
    (action_mapping.map_action_effect v).2 ≠ v := by
  have heq : (action_mapping.map_action_effect v).2 = action_mapping.pad5 v := by
    unfold action_mapping.map_action_effect
    rw [if_neg hne]
  refine ⟨heq, ?_, ?_⟩
  · rw [heq]
    exact pad5_length v (le_of_lt hlt)
  · rw [heq]
    intro h
    have := pad5_length v (le_of_lt hlt)
    rw [h] at this
    omega

/-- Witness for C10: the singleton vector `[1]` comes back as
`[1, 0, 0, 0, 0]`. -/
theorem map_action_effect_mutates_witness :
    (action_mapping.map_action_effect [1]).2 = [1] ++ List.replicate (5 - [(1 : ℚ)].length) 0 ∧
    (action_mapping.map_action_effect [1]).2.length = 5 ∧
    (action_mapping.map_action_effect [1]).2 ≠ [1] :=
  map_action_effect_mutates [1] (by simp) (by simp)

theorem list_rl_decisions_sublist (db : List RLDecisionRow) (device : String)
    (limit : ℕ) (before : Option ℕ) :
    List.Sublist (list_rl_decisions db device limit before).1
      ((rl_query_filter db device before).insertionSort byIdDesc) := by
  simp only [list_rl_decisions]
  split_ifs
  · exact (List.take_sublist _ _).trans (List.take_sublist _ _)
  · exact List.take_sublist _ _

theorem list_rl_decisions_length (db : List RLDecisionRow) (device : String)
    (limit : ℕ) (before : Option ℕ) :
    (list_rl_decisions db device limit before).1.length =
      min limit (rl_query_filter db device before).length := by
  have hlen : ((rl_query_filter db device before).insertionSort byIdDesc).length =
      (rl_query_filter db device before).length :=
    (List.perm_insertionSort byIdDesc _).length_eq
  simp only [list_rl_decisions]
  split_ifs with h
  · rw [decide_eq_true_iff] at h
    simp only [List.length_take] at h ⊢
    omega
  · rw [decide_eq_true_iff] at h
    push_neg at h
    simp only [List.length_take] at h ⊢
    omega

/-- C8: the history listing returns entries ordered by `id` descending,
restricted to the device and (when a cursor is given) to
`id < before_id`; `has_more` is true exactly when more than `limit` rows
match (the query grabs `limit + 1` rows and trims); and the spec's
scenario — `limit = 25` against 30 stored decisions — returns 25 entries
(ids 30..6), `has_more = true`, and `next_before_id = 6`, the smallest
id returned. -/
theorem rl_history_pagination_spec :
    (∀ (db : List RLDecisionRow) (device : String) (limit : ℕ)
        (before : Option ℕ),
      List.Pairwise byIdDesc (list_rl_decisions db device limit before).1 ∧
      (∀ r ∈ (list_rl_decisions db device limit before).1,
        r.device_id = device ∧ ∀ b, before = some b → r.id < b) ∧
      ((list_rl_decisions db device limit before).2 = true ↔
        limit < (rl_query_filter db device before).length) ∧
      (list_rl_decisions db device limit before).1.length =
        min limit (rl_query_filter db device before).length) ∧
    demo_expected.length = 25 ∧
    rl_history_page demo_db "dev" 25 none = (demo_expected, some 6, true) := by
  refine ⟨?_, by decide, by decide⟩
  intro db device limit before
  have hsub := list_rl_decisions_sublist db device limit before
  have hsorted : List.Sorted byIdDesc
      ((rl_query_filter db device before).insertionSort byIdDesc) :=
    List.sorted_insertionSort byIdDesc _
  have hmemF : ∀ r ∈ (list_rl_decisions db device limit before).1,
      r ∈ rl_query_filter db device before := by
    intro r hr
    exact ((List.perm_insertionSort byIdDesc _).mem_iff).1 (hsub.subset hr)
  refine ⟨List.Pairwise.sublist hsub hsorted, ?_, ?_,
    list_rl_decisions_length db device limit before⟩
  · intro r hr
    have hrF := hmemF r hr
    unfold rl_query_filter at hrF
    cases before with
    | none =>
      simp only at hrF
      obtain ⟨-, hdev⟩ := List.mem_filter.1 hrF
      exact ⟨of_decide_eq_true hdev, by simp⟩
    | some b =>
      simp only at hrF
      obtain ⟨hrF1, hlt⟩ := List.mem_filter.1 hrF
      obtain ⟨-, hdev⟩ := List.mem_filter.1 hrF1
      refine ⟨of_decide_eq_true hdev, ?_⟩
      intro b2 hb2
      cases hb2
      exact of_decide_eq_true hlt
  · have hlen : ((rl_query_filter db device before).insertionSort byIdDesc).length =
        (rl_query_filter db device before).length :=
      (List.perm_insertionSort byIdDesc _).length_eq
    simp only [list_rl_decisions, decide_eq_true_iff, List.length_take]
    rw [hlen]
    omega

/-- Witness for C8: the row with id 30 is among the 25 entries returned
in the scenario, and it satisfies the listing's per-entry guarantees. -/
theorem rl_history_pagination_spec_witness :
    (⟨30, "dev"⟩ : RLDecisionRow).device_id = "dev" ∧
      ∀ b, (none : Option ℕ) = some b → (⟨30, "dev"⟩ : RLDecisionRow).id < b :=
  (rl_history_pagination_spec.1 demo_db "dev" 25 none).2.1 ⟨30, "dev"⟩ (by decide)

/-- C9: the dedup cache is bounded.  An insert attempted at the capacity
of `_DEDUP_MAX = 5000` entries first evicts the oldest entries in
insertion order — the eviction loop deletes `_DEDUP_MAX//10 + 2 = 502`
of them, i.e. roughly the oldest 10% — and then appends the new key, so
the size right after the insert is `4499 ≤ 5000`; more generally any
insert into a cache within capacity leaves it within capacity. -/
theorem dedup_insert_spec {K : Type} [DecidableEq K] (cache : List K) (key : K)
    (hlen : cache.length = DEDUP_MAX) (hnew : key ∉ cache) :
    dedup_insert cache key = cache.drop dedup_evict_count ++ [key] ∧
    dedup_evict_count = 502 ∧
    (dedup_insert cache key).length = 4499 ∧
    (∀ (c2 : List K) (k2 : K), c2.length ≤ DEDUP_MAX →
      (dedup_insert c2 k2).length ≤ DEDUP_MAX) := by
  have hcount : dedup_evict_count = 502 := by
    norm_num [dedup_evict_count, DEDUP_MAX]
  have heq : dedup_insert cache key = cache.drop dedup_evict_count ++ [key] := by
    simp only [dedup_insert, if_neg hnew, hlen]
    rw [if_pos (le_refl DEDUP_MAX)]
  refine ⟨heq, hcount, ?_, ?_⟩
  · rw [heq]
    simp only [List.length_append, List.length_drop, hlen, hcount]
    norm_num [DEDUP_MAX]
  · intro c2 k2 hle
    by_cases hmem : k2 ∈ c2
    · simpa [dedup_insert, hmem] using hle
    · simp only [dedup_insert, if_neg hmem]
      split_ifs with hcap
      · simp only [List.length_append, List.length_drop, List.length_singleton,
          hcount]
        simp only [DEDUP_MAX] at *
        omega
      · simp only [List.length_append, List.length_singleton]
        simp only [DEDUP_MAX] at *
        omega

/-- Witness for C9: a full cache of the 5000 keys `0..4999` receiving
the fresh key `5000`. -/
theorem dedup_insert_spec_witness :
    dedup_insert (List.range 5000) 5000 =
        (List.range 5000).drop dedup_evict_count ++ [5000] ∧
      dedup_evict_count = 502 ∧
      (dedup_insert (List.range 5000) 5000).length = 4499 ∧
      (∀ (c2 : List ℕ) (k2 : ℕ), c2.length ≤ DEDUP_MAX →
        (dedup_insert c2 k2).length ≤ DEDUP_MAX) :=
  dedup_insert_spec (List.range 5000) 5000 (by simp [DEDUP_MAX]) (by simp)

theorem filterMap_check_eq (rules : List Rule) (payload : List (String × ℚ)) :
    (rules.filterMap fun r => (r.check payload).map (mkAlert r)) =
      (rules.filter fun r => (r.check payload).isSome).map
        (fun r => mkAlert r ((r.check payload).getD (0, 0))) := by
  induction rules with
  | nil => rfl
  | cons r rs ih => cases h : r.check payload <;> simp [h, ih]

/-- C7: the Rule Evaluator never raises on partial payloads — a rule
whose named field is absent yields nothing; a present field yields an
alert (carrying the observed value and the threshold) exactly when the
`lt`/`gt` comparison holds; and `evaluate` yields the alerts of the
firing rules in declaration order. -/
theorem rules_evaluate_spec (payload : List (String × ℚ)) :
    (∀ r : Rule, payload.lookup r.field = none → r.check payload = none) ∧
    (∀ (r : Rule) (v : ℚ), payload.lookup r.field = some v →
      r.check payload =
        if (r.op = "lt" ∧ v < r.threshold) ∨ (r.op = "gt" ∧ v > r.threshold)
          then some (v, r.threshold) else none) ∧
    evaluate payload =
      (RULES.filter fun r => (r.check payload).isSome).map
        (fun r => mkAlert r ((r.check payload).getD (0, 0))) := by
  refine ⟨?_, ?_, filterMap_check_eq RULES payload⟩
  · intro r h
    simp [Rule.check, h]
  · intro r v h
    simp only [Rule.check, h]
    by_cases hlt : r.op = "lt" ∧ v < r.threshold
    · simp [hlt]
    · by_cases hgt : r.op = "gt" ∧ v > r.threshold
      · simp [hlt, hgt]
      · simp [hlt, hgt]

/-- Witness for C7: a payload carrying only `voltage` makes the SoC rule
yield nothing. -/
theorem rules_evaluate_spec_witness :
    Rule.check ⟨"soc", "lt", 20, "WARN", "SOC_LOW", "State of Charge below 20%"⟩
      [("voltage", 300)] = none :=
  (rules_evaluate_spec [("voltage", 300)]).1
    ⟨"soc", "lt", 20, "WARN", "SOC_LOW", "State of Charge below 20%"⟩ (by simp)

theorem Except_bind_ok {ε α β : Type} (a : α) (f : α → Except ε β) :
    (Except.ok a : Except ε α).bind f = f a := rfl

theorem Except_bind_error {ε α β : Type} (e : ε) (f : α → Except ε β) :
    (Except.error e : Except ε α).bind f = Except.error e := rfl

theorem getKey_some (v : ℚ) (k : String) : getKey (some v) k = Except.ok v := rfl

theorem getKey_none (k : String) : getKey none k = Except.error k := rfl

theorem battery_block_high_soc (soc b : ℚ) (hsoc : soc > 90/100) (hb : b > 0) :
    battery_block soc b = (0, ["BLOCK_CHARGE_HIGH_SOC"]) := by
  simp only [battery_block, BATTERY_MAX_CHARGE_TOTAL, BATTERY_MAX_DISCHARGE_TOTAL]
  split_ifs <;> simp_all <;> linarith

theorem battery_block_charge_clamp (soc b : ℚ)
    (hb : b > BATTERY_MAX_CHARGE_TOTAL) (hs : ¬ soc > 90/100) :
    battery_block soc b = (BATTERY_MAX_CHARGE_TOTAL, ["CLAMP_BATTERY_CHARGE"]) := by
  simp only [battery_block, BATTERY_MAX_CHARGE_TOTAL,
    BATTERY_MAX_DISCHARGE_TOTAL] at *
  split_ifs <;> simp_all <;> linarith

theorem battery_block_discharge_clamp (soc b : ℚ)
    (hb : b < -BATTERY_MAX_DISCHARGE_TOTAL) (hs : ¬ soc < 20/100) :
    battery_block soc b = (-BATTERY_MAX_DISCHARGE_TOTAL, ["CLAMP_BATTERY_DISCHARGE"]) := by
  simp only [battery_block, BATTERY_MAX_CHARGE_TOTAL,
    BATTERY_MAX_DISCHARGE_TOTAL] at *
  split_ifs <;> simp_all <;> linarith

theorem brule1_ok (soc b : ℚ) (d : SemDict) (f : List String)
    (hd : d.battery_kw = some b) :
    brule1 soc (d, f) =
      Except.ok (if soc < 20/100 ∧ b < 0
        then ({ d with battery_kw := some 0 }, f ++ ["BLOCK_DISCHARGE_LOW_SOC"])
        else (d, f)) := by
  simp only [brule1, hd, getKey_some, Except_bind_ok]
  split_ifs <;> simp_all

theorem brule2_ok (soc b : ℚ) (d : SemDict) (f : List String)
    (hd : d.battery_kw = some b) :
    brule2 soc (d, f) =
      Except.ok (if soc > 90/100 ∧ b > 0
        then ({ d with battery_kw := some 0 }, f ++ ["BLOCK_CHARGE_HIGH_SOC"])
        else (d, f)) := by
  simp only [brule2, hd, getKey_some, Except_bind_ok]
  split_ifs <;> simp_all

theorem brule3_ok (b : ℚ) (d : SemDict) (f : List String)
    (hd : d.battery_kw = some b) :
    brule3 (d, f) =
      Except.ok (if b > BATTERY_MAX_CHARGE_TOTAL
        then ({ d with battery_kw := some BATTERY_MAX_CHARGE_TOTAL },
              f ++ ["CLAMP_BATTERY_CHARGE"])
        else (d, f)) := by
  simp only [brule3, hd, getKey_some, Except_bind_ok]
  split_ifs <;> simp_all

theorem brule4_ok (b : ℚ) (d : SemDict) (f : List String)
    (hd : d.battery_kw = some b) :
    brule4 (d, f) =
      Except.ok (if b < -BATTERY_MAX_DISCHARGE_TOTAL
        then ({ d with battery_kw := some (-BATTERY_MAX_DISCHARGE_TOTAL) },
              f ++ ["CLAMP_BATTERY_DISCHARGE"])
        else (d, f)) := by
  simp only [brule4, hd, getKey_some, Except_bind_ok]
  split_ifs <;> simp_all

theorem battery_rules_dict_ok (soc b : ℚ) (d : SemDict) (f : List String)
    (hd : d.battery_kw = some b) :
    battery_rules_dict soc (d, f) =
      Except.ok ({ d with battery_kw := some (battery_block soc b).1 },
                 f ++ (battery_block soc b).2) := by
  simp only [battery_rules_dict]
  rw [brule1_ok soc b d f hd, Except_bind_ok]
  by_cases h1 : soc < 20/100 ∧ b < 0
  · rw [if_pos h1, brule2_ok soc 0 _ _ (by simp), Except_bind_ok,
      if_neg (by simp : ¬(soc > 90/100 ∧ (0:ℚ) > 0)),
      brule3_ok 0 _ _ (by simp), Except_bind_ok,
      if_neg (by norm_num [BATTERY_MAX_CHARGE_TOTAL]),
      brule4_ok 0 _ _ (by simp),
      if_neg (by norm_num [BATTERY_MAX_DISCHARGE_TOTAL]),
      battery_block_low_soc soc b h1.1 h1.2]
  · rw [if_neg h1, brule2_ok soc b d f hd, Except_bind_ok]
    by_cases h2 : soc > 90/100 ∧ b > 0
    · rw [if_pos h2, brule3_ok 0 _ _ (by simp), Except_bind_ok,
        if_neg (by norm_num [BATTERY_MAX_CHARGE_TOTAL]),
        brule4_ok 0 _ _ (by simp),
        if_neg (by norm_num [BATTERY_MAX_DISCHARGE_TOTAL]),
        battery_block_high_soc soc b h2.1 h2.2]
    · rw [if_neg h2, brule3_ok b d f hd, Except_bind_ok]
      by_cases h3 : b > BATTERY_MAX_CHARGE_TOTAL
      · have hs2 : ¬ soc > 90/100 := by
          intro hs
          exact h2 ⟨hs, by
            simp only [BATTERY_MAX_CHARGE_TOTAL] at h3
            linarith⟩
        rw [if_pos h3, brule4_ok BATTERY_MAX_CHARGE_TOTAL _ _ (by simp),
          if_neg (by norm_num [BATTERY_MAX_CHARGE_TOTAL, BATTERY_MAX_DISCHARGE_TOTAL]),
          battery_block_charge_clamp soc b h3 hs2]
      · rw [if_neg h3, brule4_ok b d f hd]
        by_cases h4 : b < -BATTERY_MAX_DISCHARGE_TOTAL
        · have hs1 : ¬ soc < 20/100 := by
            intro hs
            exact h1 ⟨hs, by
              simp only [BATTERY_MAX_DISCHARGE_TOTAL] at h4
              linarith⟩
          rw [if_pos h4, battery_block_discharge_clamp soc b h4 hs1]
        · rw [if_neg h4, battery_block_fix soc b h1 h2 h3 h4]
          obtain ⟨bk, b1, b2, gk, ek, ck⟩ := d
          simp only [SemDict.battery_kw] at hd
          subst hd
          simp

theorem brule1_missing (soc : ℚ) (d : SemDict) (f : List String)
    (hd : d.battery_kw = none) :
    brule1 soc (d, f) =
      if soc < 20/100 then Except.error "battery_kw" else Except.ok (d, f) := by
  simp only [brule1, hd, getKey_none, Except_bind_error]

theorem brule2_missing (soc : ℚ) (d : SemDict) (f : List String)
    (hd : d.battery_kw = none) :
    brule2 soc (d, f) =
      if soc > 90/100 then Except.error "battery_kw" else Except.ok (d, f) := by
  simp only [brule2, hd, getKey_none, Except_bind_error]

theorem battery_rules_dict_missing (soc : ℚ) (d : SemDict) (f : List String)
    (hd : d.battery_kw = none) :
    battery_rules_dict soc (d, f) = Except.error "battery_kw" := by
  simp only [battery_rules_dict]
  rw [brule1_missing soc d f hd]
  by_cases h1 : soc < 20/100
  · rw [if_pos h1, Except_bind_error]
  · rw [if_neg h1, Except_bind_ok, brule2_missing soc d f hd]
    by_cases h2 : soc > 90/100
    · rw [if_pos h2, Except_bind_error]
    · rw [if_neg h2, Except_bind_ok]
      simp only [brule3, hd, getKey_none, Except_bind_error]

theorem grid_block_fix (g : ℚ) (h1 : ¬ g < 0) (h2 : ¬ g > GRID_MAX_IMPORT) :
    grid_block g = (g, []) := by
  simp only [grid_block]
  split_ifs <;> simp_all

theorem ev_block_neg (e : ℚ) (he : e < 0) :
    ev_block e = (0, ["NEG_EV_POWER"]) := by
  simp only [ev_block, EV_MAX_CHARGE]
  split_ifs <;> simp_all <;> linarith

theorem ev_block_clamp (e : ℚ) (he : e > EV_MAX_CHARGE) :
    ev_block e = (EV_MAX_CHARGE, ["CLAMP_EV_CHARGE"]) := by
  simp only [ev_block, EV_MAX_CHARGE] at *
  split_ifs <;> simp_all <;> linarith

theorem ev_block_fix (e : ℚ) (h1 : ¬ e < 0) (h2 : ¬ e > EV_MAX_CHARGE) :
    ev_block e = (e, []) := by
  simp only [ev_block]
  split_ifs <;> simp_all

theorem curtailment_block_neg (c : ℚ) (hc : c < 0) :
    curtailment_block c = (0, ["CURTAILMENT_NEG"]) := by
  simp only [curtailment_block]
  split_ifs <;> simp_all <;> linarith

theorem curtailment_block_gt1 (c : ℚ) (hc : c > 1) :
    curtailment_block c = (1, ["CURTAILMENT_GT1"]) := by
  simp only [curtailment_block]
  split_ifs <;> simp_all <;> linarith

theorem curtailment_block_fix (c : ℚ) (h1 : ¬ c < 0) (h2 : ¬ c > 1) :
    curtailment_block c = (c, []) := by
  simp only [curtailment_block]
  split_ifs <;> simp_all

theorem grule1_ok (g : ℚ) (d : SemDict) (f : List String)
    (hd : d.grid_kw = some g) :
    grule1 (d, f) =
      Except.ok (if g < 0
        then ({ d with grid_kw := some 0 }, f ++ ["NO_EXPORT_SUPPORTED"])
        else (d, f)) := by
  simp only [grule1, hd, getKey_some, Except_bind_ok]
  split_ifs <;> rfl

theorem grule2_ok (g : ℚ) (d : SemDict) (f : List String)
    (hd : d.grid_kw = some g) :
    grule2 (d, f) =
      Except.ok (if g > GRID_MAX_IMPORT
        then ({ d with grid_kw := some GRID_MAX_IMPORT }, f ++ ["CLAMP_GRID_IMPORT"])
        else (d, f)) := by
  simp only [grule2, hd, getKey_some, Except_bind_ok]
  split_ifs <;> rfl

theorem grid_rules_dict_ok (g : ℚ) (d : SemDict) (f : List String)
    (hd : d.grid_kw = some g) :
    grid_rules_dict (d, f) =
      Except.ok ({ d with grid_kw := some (grid_block g).1 },
                 f ++ (grid_block g).2) := by
  simp only [grid_rules_dict]
  rw [grule1_ok g d f hd, Except_bind_ok]
  by_cases h1 : g < 0
  · rw [if_pos h1, grule2_ok 0 _ _ (by simp),
      if_neg (by norm_num [GRID_MAX_IMPORT]), grid_block_neg g h1]
  · rw [if_neg h1, grule2_ok g d f hd]
    by_cases h2 : g > GRID_MAX_IMPORT
    · rw [if_pos h2, grid_block_clamp g h2]
    · rw [if_neg h2, grid_block_fix g h1 h2]
      obtain ⟨bk, b1, b2, gk, ek, ck⟩ := d
      simp only [SemDict.grid_kw] at hd
      subst hd
      simp

theorem grid_rules_dict_missing (d : SemDict) (f : List String)
    (hd : d.grid_kw = none) :
    grid_rules_dict (d, f) = Except.error "grid_kw" := by
  simp only [grid_rules_dict, grule1, hd, getKey_none, Except_bind_error]

theorem evrule1_ok (e : ℚ) (d : SemDict) (f : List String)
    (hd : d.ev_kw = some e) :
    evrule1 (d, f) =
      Except.ok (if e < 0
        then ({ d with ev_kw := some 0 }, f ++ ["NEG_EV_POWER"])
        else (d, f)) := by
  simp only [evrule1, hd, getKey_some, Except_bind_ok]
  split_ifs <;> rfl

theorem evrule2_ok (e : ℚ) (d : SemDict) (f : List String)
    (hd : d.ev_kw = some e) :
    evrule2 (d, f) =
      Except.ok (if e > EV_MAX_CHARGE
        then ({ d with ev_kw := some EV_MAX_CHARGE }, f ++ ["CLAMP_EV_CHARGE"])
        else (d, f)) := by
  simp only [evrule2, hd, getKey_some, Except_bind_ok]
  split_ifs <;> rfl

theorem ev_rules_dict_ok (e : ℚ) (d : SemDict) (f : List String)
    (hd : d.ev_kw = some e) :
    ev_rules_dict (d, f) =
      Except.ok ({ d with ev_kw := some (ev_block e).1 },
                 f ++ (ev_block e).2) := by
  simp only [ev_rules_dict]
  rw [evrule1_ok e d f hd, Except_bind_ok]
  by_cases h1 : e < 0
  · rw [if_pos h1, evrule2_ok 0 _ _ (by simp),
      if_neg (by norm_num [EV_MAX_CHARGE]), ev_block_neg e h1]
  · rw [if_neg h1, evrule2_ok e d f hd]
    by_cases h2 : e > EV_MAX_CHARGE
    · rw [if_pos h2, ev_block_clamp e h2]
    · rw [if_neg h2, ev_block_fix e h1 h2]
      obtain ⟨bk, b1, b2, gk, ek, ck⟩ := d
      simp only [SemDict.ev_kw] at hd
      subst hd
      simp

theorem ev_rules_dict_missing (d : SemDict) (f : List String)
    (hd : d.ev_kw = none) :
    ev_rules_dict (d, f) = Except.error "ev_kw" := by
  simp only [ev_rules_dict, evrule1, hd, getKey_none, Except_bind_error]

theorem crule1_ok (c : ℚ) (d : SemDict) (f : List String)
    (hd : d.curtailment = some c) :
    crule1 (d, f) =
      Except.ok (if c < 0
        then ({ d with curtailment := some 0 }, f ++ ["CURTAILMENT_NEG"])
        else (d, f)) := by
  simp only [crule1, hd, getKey_some, Except_bind_ok]
  split_ifs <;> rfl

theorem crule2_ok (c : ℚ) (d : SemDict) (f : List String)
    (hd : d.curtailment = some c) :
    crule2 (d, f) =
      Except.ok (if c > 1
        then ({ d with curtailment := some 1 }, f ++ ["CURTAILMENT_GT1"])
        else (d, f)) := by
  simp only [crule2, hd, getKey_some, Except_bind_ok]
  split_ifs <;> rfl

theorem curtailment_rules_dict_ok (c : ℚ) (d : SemDict) (f : List String)
    (hd : d.curtailment = some c) :
    curtailment_rules_dict (d, f) =
      Except.ok ({ d with curtailment := some (curtailment_block c).1 },
                 f ++ (curtailment_block c).2) := by
  simp only [curtailment_rules_dict]
  rw [crule1_ok c d f hd, Except_bind_ok]
  by_cases h1 : c < 0
  · rw [if_pos h1, crule2_ok 0 _ _ (by simp),
      if_neg (by norm_num), curtailment_block_neg c h1]
  · rw [if_neg h1, crule2_ok c d f hd]
    by_cases h2 : c > 1
    · rw [if_pos h2, curtailment_block_gt1 c h2]
    · rw [if_neg h2, curtailment_block_fix c h1 h2]
      obtain ⟨bk, b1, b2, gk, ek, ck⟩ := d
      simp only [SemDict.curtailment] at hd
      subst hd
      simp

theorem curtailment_rules_dict_missing (d : SemDict) (f : List String)
    (hd : d.curtailment = none) :
    curtailment_rules_dict (d, f) = Except.error "curtailment" := by
  simp only [curtailment_rules_dict, crule1, hd, getKey_none, Except_bind_error]

/-- C1 counterexample: `apply_safety` does raise on a dictionary missing
a standard field.  With `battery_kw` absent (and every other field
present and in range) and `soc_fraction = 0.5`, the unconditional
subscript `safe['battery_kw']` in the battery clamp raises `KeyError`
instead of clamping the missing field and recording a flag. -/
theorem apply_safety_missing_key_raises :
    apply_safety_dict ⟨none, some 0, some 0, some 0, some 0, some 0⟩ (1/2) =
      Except.error "battery_kw" := by
  unfold apply_safety_dict
  rw [battery_rules_dict_missing (1/2)
      (⟨none, some 0, some 0, some 0, some 0, some 0⟩ : SemDict) [] rfl,
    Except_bind_error]

/-- C1 amended: `apply_safety` is total (never raises) on semantic-action
dictionaries containing the fields `battery_kw`, `grid_kw`, `ev_kw` and
`curtailment`, returning the clamped action plus flags; but a dictionary
missing one of those four fields raises `KeyError` on the first subscript
of the missing key — the missing field is not clamped and no flag is
recorded for it. -/
theorem apply_safety_dict_spec :
    (∀ (a : SemAction) (soc : ℚ),
      apply_safety_dict (SemDict.ofAction a) soc =
        Except.ok (SemDict.ofAction (apply_safety a soc).1,
                   (apply_safety a soc).2)) ∧
    (∀ (d : SemDict) (soc : ℚ), d.battery_kw = none →
      apply_safety_dict d soc = Except.error "battery_kw") ∧
    (∀ (d : SemDict) (soc : ℚ), (d.battery_kw).isSome = true →
      d.grid_kw = none → apply_safety_dict d soc = Except.error "grid_kw") ∧
    (∀ (d : SemDict) (soc : ℚ), (d.battery_kw).isSome = true →
      (d.grid_kw).isSome = true → d.ev_kw = none →
      apply_safety_dict d soc = Except.error "ev_kw") ∧
    (∀ (d : SemDict) (soc : ℚ), (d.battery_kw).isSome = true →
      (d.grid_kw).isSome = true → (d.ev_kw).isSome = true →
      d.curtailment = none →
      apply_safety_dict d soc = Except.error "curtailment") := by
  refine ⟨?_, ?_, ?_, ?_, ?_⟩
  · intro a soc
    unfold apply_safety_dict
    rw [battery_rules_dict_ok soc a.battery_kw (SemDict.ofAction a) [] rfl,
      Except_bind_ok,
      grid_rules_dict_ok a.grid_kw _ _ (by rfl), Except_bind_ok,
      ev_rules_dict_ok a.ev_kw _ _ (by rfl), Except_bind_ok,
      curtailment_rules_dict_ok a.curtailment _ _ (by rfl)]
    simp [SemDict.ofAction, apply_safety]
  · intro d soc hd
    unfold apply_safety_dict
    rw [battery_rules_dict_missing soc d [] hd, Except_bind_error]
  · intro d soc hb hg
    obtain ⟨b, hb⟩ := Option.isSome_iff_exists.1 hb
    unfold apply_safety_dict
    rw [battery_rules_dict_ok soc b d [] hb, Except_bind_ok,
      grid_rules_dict_missing _ _ (by simp [hg]), Except_bind_error]
  · intro d soc hb hg he
    obtain ⟨b, hb⟩ := Option.isSome_iff_exists.1 hb
    obtain ⟨g, hg⟩ := Option.isSome_iff_exists.1 hg
    unfold apply_safety_dict
    rw [battery_rules_dict_ok soc b d [] hb, Except_bind_ok,
      grid_rules_dict_ok g _ _ (by simp [hg]), Except_bind_ok,
      ev_rules_dict_missing _ _ (by simp [he]), Except_bind_error]
  · intro d soc hb hg he hc
    obtain ⟨b, hb⟩ := Option.isSome_iff_exists.1 hb
    obtain ⟨g, hg⟩ := Option.isSome_iff_exists.1 hg
    obtain ⟨e, he⟩ := Option.isSome_iff_exists.1 he
    unfold apply_safety_dict
    rw [battery_rules_dict_ok soc b d [] hb, Except_bind_ok,
      grid_rules_dict_ok g _ _ (by simp [hg]), Except_bind_ok,
      ev_rules_dict_ok e _ _ (by simp [he]), Except_bind_ok,
      curtailment_rules_dict_missing _ _ (by simp [hc])]

/-- Witness for C1 (amended): a dictionary whose `grid_kw` is absent
(but `battery_kw` present) raises `KeyError` for `grid_kw`. -/
theorem apply_safety_dict_spec_witness :
    apply_safety_dict ⟨some 0, some 0, some 0, none, some 0, some 0⟩ (1/2) =
      Except.error "grid_kw" :=
  apply_safety_dict_spec.2.2.1
    ⟨some 0, some 0, some 0, none, some 0, some 0⟩ (1/2) rfl rfl
